import Mathlib

/-!
Verification of the scanbd device-polling scheduler and trigger engine
(src/src/scanbd/sane.c) against its natural-language specification.

The C data structures and the relevant slices of control flow are embedded
as executable Lean definitions.  Device and operating-system behaviour
(option descriptors, option reads, getenv, getcwd, regcomp return codes)
is passed in as explicit parameters, mirroring the values the C code would
receive from those calls.
-/

namespace Scanbd

/-- The SANE value types relevant to sane.c (SANE_TYPE_*). -/
inductive SaneType where
  | tBool
  | tInt
  | tFixed
  | tButton
  | tString
  | tGroup
deriving DecidableEq

/-- Embeds `struct sane_opt_value` (sane.c lines 64-70).
`numValue` is the `unsigned long num_value` field; `strValStr` is
`str_value.str` (`none` = NULL pointer); `strValReg` is `str_value.reg`,
modelled as the pattern the regex object was compiled from together with
a flag recording whether that `regcomp` call succeeded (`none` = NULL). -/
structure SaneOptValue where
  numValue : Nat
  strValStr : Option String
  strValReg : Option (String × Bool)
deriving DecidableEq

/-- Embeds `sane_option_value_init` (lines 175-179): all fields zeroed. -/
def saneOptValueInit : SaneOptValue :=
  { numValue := 0, strValStr := none, strValReg := none }

/-- Embeds `struct sane_dev_option` (lines 73-84): one installed action
rule.  `script = none` models a NULL script pointer. -/
structure SaneDevOption where
  number : Nat
  fromValue : SaneOptValue
  toValue : SaneOptValue
  value : SaneOptValue
  script : Option String
  actionName : String
deriving DecidableEq

/-- Embeds the option-descriptor fields sane.c reads
(`type`, `size`, `name` of `SANE_Option_Descriptor`). -/
structure OptDescriptor where
  otype : SaneType
  size : Nat
  name : String
deriving DecidableEq

/-- `sizeof(long int)` on the target platform (64-bit Linux). -/
def sizeofLong : Nat := 8

/-- The numeric-type test used throughout sane.c
(`SANE_TYPE_BOOL || SANE_TYPE_INT || SANE_TYPE_FIXED || SANE_TYPE_BUTTON`). -/
def isNumericSaneType (t : SaneType) : Bool :=
  t == SaneType.tBool || t == SaneType.tInt || t == SaneType.tFixed ||
    t == SaneType.tButton

/-- Embeds the C `hash` function (lines 166-173): djb2 over the bytes of
a C string, in `unsigned long` (64-bit wrap-around) arithmetic.
`hash = ((hash << 5) + hash) + c`, starting from 5381. -/
def hashStr (s : String) : Nat :=
  s.toList.foldl (fun h c => (((h <<< 5) + h) + c.toNat) % 2 ^ 64) 5381

/-- The null-terminated read buffer of `get_sane_option_value` for string
options: `calloc(size + 1)` then `str[size] = 0` truncates the string the
backend produced to at most `size` characters. -/
def cstrTrunc (s : String) (n : Nat) : String :=
  String.mk (s.toList.take n)

/-- Embeds `get_sane_option_value` (lines 193-253).  The device library
is abstracted by the three parameters: `descr` is the result of
`sane_get_option_descriptor` (`none` = NULL), `readNum` the value stored
by a numeric `sane_control_option` read (`none` = failing status), and
`readStr` the C string stored by a string read (`none` = failing status).
On every failure path the C function returns the zero-initialized value
(for strings the calloc-ed buffer, i.e. the empty string, is kept). -/
def get_sane_option_value (descr : Option OptDescriptor)
    (readNum : Option Nat) (readStr : Option String) : SaneOptValue :=
  let res := saneOptValueInit
  match descr with
  | none => res
  | some odesc =>
    if isNumericSaneType odesc.otype then
      if odesc.size ≤ sizeofLong then
        match readNum with
        | none => res
        | some v => { res with numValue := v % 2 ^ 64 }
      else res
    else if odesc.otype == SaneType.tString then
      let buf := { res with strValStr := some "" }
      match readStr with
      | none => buf
      | some s =>
        let s1 := cstrTrunc s odesc.size
        { numValue := hashStr s1, strValStr := some s1, strValReg := none }
    else res

/-- Embeds the numeric trigger comparison of `sane_poll` (lines 832-833):
fire when the stored value (`opts[si].value`, the last observation) equals
the `from` value and the freshly read `value` equals the `to` value. -/
def numericTriggerFires (o : SaneDevOption) (value : SaneOptValue) : Bool :=
  o.fromValue.numValue == o.value.numValue &&
    o.toValue.numValue == value.numValue

/-- One poll check of a numeric option as in `sane_poll` (lines 830-868):
the current reading `cur` is compared, and the stored value is replaced by
the just-read value (line 868 `st->opts[si].value = value`).
Returns (fired, updated rule). -/
def pollNumericStep (o : SaneDevOption) (cur : Nat) : Bool × SaneDevOption :=
  let value : SaneOptValue :=
    { numValue := cur, strValStr := none, strValReg := none }
  (numericTriggerFires o value, { o with value := value })

/-- Iterated poll checks of one numeric rule over the per-iteration value
sequence the device yields; returns the list of fire decisions. -/
def pollNumericSeq (o : SaneDevOption) (seq : List Nat) : List Bool :=
  match seq with
  | [] => []
  | cur :: rest =>
    let r := pollNumericStep o cur
    r.1 :: pollNumericSeq r.2 rest

/-- The scenario rule of spec section 8, scenario 1: numeric trigger
from 0 to 1, last observation initially 0. -/
def buttonRule : SaneDevOption :=
  { number := 3
    fromValue := { numValue := 0, strValStr := none, strValReg := none }
    toValue := { numValue := 1, strValStr := none, strValReg := none }
    value := { numValue := 0, strValStr := none, strValReg := none }
    script := some "/tmp/s.sh"
    actionName := "test" }

/-- C1: a numeric rule fires in an iteration exactly when the stored last
observation equals `from` and the fresh reading equals `to`; over the
device sequence 0,0,1,1,0 with from=0, to=1, the rule fires exactly once,
on the 0-to-1 step (third reading), because the stored value is replaced
by the just-read value at the end of each check. -/
theorem C1_numeric_transition_fires_once :
    (∀ (o : SaneDevOption) (cur : Nat),
      (pollNumericStep o cur).1 = true ↔
        (o.value.numValue = o.fromValue.numValue ∧ cur = o.toValue.numValue)) ∧
    pollNumericSeq buttonRule [0, 0, 1, 1, 0] =
      [false, false, true, false, false] := by
  constructor
  · intro o cur
    simp only [pollNumericStep, numericTriggerFires, Bool.and_eq_true, beq_iff_eq]
    constructor
    · rintro ⟨h1, h2⟩
      exact ⟨h1.symm, h2.symm⟩
    · rintro ⟨h1, h2⟩
      exact ⟨h1.symm, h2.symm⟩
  · rfl

/-- Witness for C1: the general characterization applied at the concrete
0-to-1 step of the scenario rule. -/
theorem C1_numeric_transition_fires_once_witness :
    (pollNumericStep buttonRule 1).1 = true ↔
      (buttonRule.value.numValue = buttonRule.fromValue.numValue ∧
        1 = buttonRule.toValue.numValue) :=
  C1_numeric_transition_fires_once.1 buttonRule 1

/-- C10: for a string option sampled successfully the returned value
carries the (size-truncated) string together with its djb2 hash
(h starts at 5381, then h = h * 33 + c per character, in 64-bit
arithmetic) in the numeric field; for a numeric option sampled
successfully the string field is NULL. -/
theorem C10_string_value_carries_djb2_hash :
    (∀ (odesc : OptDescriptor) (readNum : Option Nat) (s : String),
      odesc.otype = SaneType.tString →
        (get_sane_option_value (some odesc) readNum (some s)).strValStr =
            some (cstrTrunc s odesc.size) ∧
          (get_sane_option_value (some odesc) readNum (some s)).numValue =
            (cstrTrunc s odesc.size).toList.foldl
              (fun h c => (h * 33 + c.toNat) % 2 ^ 64) 5381) ∧
    (∀ (odesc : OptDescriptor) (readStr : Option String) (v : Nat),
      isNumericSaneType odesc.otype = true → odesc.size ≤ sizeofLong →
        (get_sane_option_value (some odesc) (some v) readStr).strValStr =
          none) := by
  constructor
  · intro odesc readNum s ht
    constructor
    · simp [get_sane_option_value, ht, isNumericSaneType]
    · have hfold : ∀ (l : List Char) (a : Nat),
          l.foldl (fun h c => (((h <<< 5) + h) + c.toNat) % 2 ^ 64) a =
            l.foldl (fun h c => (h * 33 + c.toNat) % 2 ^ 64) a := by
        intro l
        induction l with
        | nil => intro a; rfl
        | cons c l ih =>
          intro a
          have harith : ((a <<< 5) + a) + c.toNat = a * 33 + c.toNat := by
            rw [Nat.shiftLeft_eq]
            ring
          simp only [List.foldl_cons, harith, ih]
      simp only [get_sane_option_value, ht, isNumericSaneType, hashStr]
      simp only [show (isNumericSaneType SaneType.tString = true) = False by
        simp [isNumericSaneType], if_false, beq_self_eq_true, if_true]
      exact hfold (cstrTrunc s odesc.size).toList 5381
  · intro odesc readStr v ht hs
    simp [get_sane_option_value, ht, hs, saneOptValueInit]

/-- Witness for C10: both parts evaluated at concrete inputs.  The string
"ab" hashes to ((5381*33+97)*33+98) = 5863207; a bool option read of 1
has a NULL string field. -/
theorem C10_string_value_carries_djb2_hash_witness :
    ((get_sane_option_value (some ⟨SaneType.tString, 16, "mode"⟩)
        none (some "ab")).strValStr = some (cstrTrunc "ab" 16) ∧
      (get_sane_option_value (some ⟨SaneType.tString, 16, "mode"⟩)
        none (some "ab")).numValue =
        (cstrTrunc "ab" 16).toList.foldl
          (fun h c => (h * 33 + c.toNat) % 2 ^ 64) 5381) ∧
    (get_sane_option_value (some ⟨SaneType.tBool, 4, "button"⟩)
      (some 1) none).strValStr = none :=
  ⟨C10_string_value_carries_djb2_hash.1 ⟨SaneType.tString, 16, "mode"⟩
      none "ab" rfl,
    C10_string_value_carries_djb2_hash.2 ⟨SaneType.tBool, 4, "button"⟩
      none 1 (by decide) (by decide)⟩

/-- The trigger-relevant fields of `struct sane_thread` (lines 97-116):
`numActions` is `num_of_options_with_scripts`, `triggered` and
`triggeredOption` are the flag and index pair. -/
structure TrigState where
  numActions : Nat
  triggered : Bool
  triggeredOption : Int
deriving DecidableEq

/-- Slot initialization in `start_sane_threads` (lines 1301-1303):
`triggered = false`, `triggered_option = -1`,
`num_of_options_with_scripts = 0`; rule compilation later raises the
count while no trigger is pending (modelled by `ruleInstall` below). -/
def initTrigState : TrigState :=
  { numActions := 0, triggered := false, triggeredOption := -1 }

/-- The writes to the trigger pair at the externally observable points of
sane.c:
* `pollFire`: the poll comparison fires rule `si` of the loop
  `for si in [0, num_of_options_with_scripts)` (lines 832-856);
* `extTrigger`: `sane_trigger_action` sets a validated action index after
  waiting until no trigger is pending (lines 1234-1254);
* `dispatchClear`: the dispatcher clears the pair (lines 1131-1132);
* `ruleInstall`: rule compilation changes the number of installed rules
  before polling begins, while no trigger is pending (lines 676, 592-596). -/
inductive TrigStep : TrigState → TrigState → Prop where
  | pollFire (s : TrigState) (si : Nat) (h : si < s.numActions) :
      TrigStep s { numActions := s.numActions, triggered := true,
                   triggeredOption := (si : Int) }
  | extTrigger (s : TrigState) (a : Nat) (hw : s.triggered = false)
      (h : a < s.numActions) :
      TrigStep s { numActions := s.numActions, triggered := true,
                   triggeredOption := (a : Int) }
  | dispatchClear (s : TrigState) (h : s.triggered = true) :
      TrigStep s { numActions := s.numActions, triggered := false,
                   triggeredOption := -1 }
  | ruleInstall (s : TrigState) (m : Nat) (h : s.triggered = false) :
      TrigStep s { numActions := m, triggered := false,
                   triggeredOption := s.triggeredOption }

/-- The claimed invariant: a pending trigger index is a valid rule index,
and a cleared trigger has index -1. -/
def TrigInv (s : TrigState) : Prop :=
  (s.triggered = true →
    0 ≤ s.triggeredOption ∧ s.triggeredOption < (s.numActions : Int)) ∧
  (s.triggered = false → s.triggeredOption = -1)

/-- C3: at every externally observable point (slot initialization, after
the poll comparison or an external trigger sets the pair, after the
dispatcher clears it, and across rule installation), `triggered = true`
implies `0 ≤ triggered_option < num_of_options_with_scripts`, and
`triggered = false` implies `triggered_option = -1`. -/
theorem C3_triggered_index_invariant (s : TrigState)
    (h : Relation.ReflTransGen TrigStep initTrigState s) : TrigInv s := by
  induction h with
  | refl =>
    constructor
    · intro hfalse
      simp [initTrigState] at hfalse
    · intro _
      rfl
  | tail _ step ih =>
    cases step with
    | pollFire si hlt =>
      refine ⟨fun _ => ⟨Int.ofNat_nonneg si, ?_⟩, fun hc => by simp at hc⟩
      dsimp only
      exact_mod_cast hlt
    | extTrigger a hw hlt =>
      refine ⟨fun _ => ⟨Int.ofNat_nonneg a, ?_⟩, fun hc => by simp at hc⟩
      dsimp only
      exact_mod_cast hlt
    | dispatchClear htr =>
      exact ⟨fun hc => by simp at hc, fun _ => rfl⟩
    | ruleInstall m hfalse =>
      exact ⟨fun hc => by simp at hc, fun _ => ih.2 hfalse⟩

/-- Witness for C3: the invariant at a concrete reachable state,
obtained by installing two rules, firing rule 1 by poll, clearing, and
firing rule 0 externally. -/
theorem C3_triggered_index_invariant_witness :
    TrigInv { numActions := 2, triggered := true, triggeredOption := 0 } :=
  C3_triggered_index_invariant _
    (Relation.ReflTransGen.tail
      (Relation.ReflTransGen.tail
        (Relation.ReflTransGen.tail
          (Relation.ReflTransGen.tail Relation.ReflTransGen.refl
            (TrigStep.ruleInstall initTrigState 2 rfl))
          (TrigStep.pollFire _ 1 (by decide)))
        (TrigStep.dispatchClear _ rfl))
      (TrigStep.extTrigger _ 0 rfl (by decide)))

/-- The observable synchronization events of `sane_trigger_action`
(lines 1197-1265), in program order. -/
inductive TrigEvent where
  | lockGlobal
  | waitGlobalCv
  | lockDevice
  | waitDeviceCv
  | setTriggered (a : Nat)
  | broadcastDevice
  | unlockDevice
  | unlockGlobal
deriving DecidableEq

/-- Embeds `sane_trigger_action` (lines 1197-1265) as the event trace it
produces together with the final device trigger state.  The device
library state is abstracted: `numDevices` is `num_devices`,
`pollersRunning` is `sane_poll_threads != NULL` at entry, and `dev` the
addressed slot.  The `while (sane_poll_threads == NULL)` loop is one
`waitGlobalCv` event after which the pollers exist; the
`while (st->triggered)` loop is one `waitDeviceCv` event after which the
trigger is clear -- the only code clearing it is the dispatcher, which
writes `triggered = false; triggered_option = -1` (lines 1131-1132). -/
def sane_trigger_action (numDevices : Nat) (pollersRunning : Bool)
    (dev : TrigState) (numberOfDev : Nat) (action : Nat) :
    List TrigEvent × TrigState :=
  let ev0 : List TrigEvent := [TrigEvent.lockGlobal]
  if numDevices = 0 then
    (ev0 ++ [TrigEvent.unlockGlobal], dev)
  else if numDevices ≤ numberOfDev then
    (ev0 ++ [TrigEvent.unlockGlobal], dev)
  else
    let ev1 := ev0 ++
      (if pollersRunning then [] else [TrigEvent.waitGlobalCv])
    let ev2 := ev1 ++ [TrigEvent.lockDevice]
    if dev.numActions ≤ action then
      (ev2 ++ [TrigEvent.unlockDevice, TrigEvent.unlockGlobal], dev)
    else
      let waited :=
        if dev.triggered then
          ([TrigEvent.waitDeviceCv],
            { dev with triggered := false, triggeredOption := -1 })
        else (([] : List TrigEvent), dev)
      let dev2 := { waited.2 with
                    triggered := true
                    triggeredOption := (action : Int) }
      (ev2 ++ waited.1 ++
        [TrigEvent.setTriggered action, TrigEvent.broadcastDevice,
          TrigEvent.unlockDevice, TrigEvent.unlockGlobal], dev2)

/-- C2: `sane_trigger_action(d, a)` validates both indices (out-of-range
indices leave the slot unchanged and never set a trigger); on a valid
pair it blocks on the global condition variable exactly when no poller
set exists (and does so before taking the device lock), waits on the
device condition variable exactly when a trigger is pending, and sets
`triggered = true` with `triggered_index = a` and broadcasts before
releasing the device lock. -/
theorem C2_sane_trigger_action_contract (numDevices : Nat)
    (pollersRunning : Bool) (dev : TrigState) (d a : Nat) :
    (d < numDevices → a < dev.numActions →
      ((sane_trigger_action numDevices pollersRunning dev d a).2.triggered
          = true ∧
        (sane_trigger_action numDevices pollersRunning dev d a
          ).2.triggeredOption = (a : Int)) ∧
      (TrigEvent.waitGlobalCv ∈
          (sane_trigger_action numDevices pollersRunning dev d a).1 ↔
        pollersRunning = false) ∧
      (TrigEvent.waitDeviceCv ∈
          (sane_trigger_action numDevices pollersRunning dev d a).1 ↔
        dev.triggered = true) ∧
      (∃ q, (sane_trigger_action numDevices pollersRunning dev d a).1 =
        [TrigEvent.lockGlobal] ++
          (if pollersRunning then [] else [TrigEvent.waitGlobalCv]) ++
          [TrigEvent.lockDevice] ++ q ++
          [TrigEvent.setTriggered a, TrigEvent.broadcastDevice,
            TrigEvent.unlockDevice, TrigEvent.unlockGlobal])) ∧
    (numDevices ≤ d ∨ dev.numActions ≤ a →
      (sane_trigger_action numDevices pollersRunning dev d a).2 = dev ∧
      ∀ x, TrigEvent.setTriggered x ∉
        (sane_trigger_action numDevices pollersRunning dev d a).1) := by
  constructor
  · intro hd ha
    have hnz : ¬ numDevices = 0 := by omega
    have hlt : ¬ numDevices ≤ d := by omega
    have hlt2 : ¬ dev.numActions ≤ a := by omega
    cases hp : pollersRunning <;> cases ht : dev.triggered
    all_goals refine ⟨⟨?_, ?_⟩, ?_, ?_, ?_⟩
    all_goals first
      | (simp [sane_trigger_action, hnz, hlt, hlt2, ht]; done)
      | exact ⟨[TrigEvent.waitDeviceCv],
          by simp [sane_trigger_action, hnz, hlt, hlt2, ht]⟩
  · intro hbad
    rcases hbad with hbad | hbad
    · have hle : numDevices ≤ d := hbad
      rcases Nat.eq_zero_or_pos numDevices with hz | hpos
      · subst hz
        constructor
        · simp [sane_trigger_action]
        · intro x
          simp [sane_trigger_action]
      · have hnz : ¬ numDevices = 0 := by omega
        constructor
        · simp [sane_trigger_action, hnz, hle]
        · intro x
          simp [sane_trigger_action, hnz, hle]
    · rcases Nat.eq_zero_or_pos numDevices with hz | hpos
      · subst hz
        constructor
        · simp [sane_trigger_action]
        · intro x
          simp [sane_trigger_action]
      · by_cases hle : numDevices ≤ d
        · have hnz : ¬ numDevices = 0 := by omega
          constructor
          · simp [sane_trigger_action, hnz, hle]
          · intro x
            simp [sane_trigger_action, hnz, hle]
        · have hnz : ¬ numDevices = 0 := by omega
          constructor
          · simp [sane_trigger_action, hnz, hle, hbad]
          · intro x
            simp [sane_trigger_action, hnz, hle, hbad]

/-- Witness for C2: the contract applied to a concrete call, device 0 of
1 with 2 installed rules, pollers running, no pending trigger. -/
theorem C2_sane_trigger_action_contract_witness :
    ((sane_trigger_action 1 true
        { numActions := 2, triggered := false, triggeredOption := -1 }
        0 1).2.triggered = true ∧
      (sane_trigger_action 1 true
        { numActions := 2, triggered := false, triggeredOption := -1 }
        0 1).2.triggeredOption = ((1 : Nat) : Int)) ∧
    (TrigEvent.waitGlobalCv ∈
        (sane_trigger_action 1 true
          { numActions := 2, triggered := false, triggeredOption := -1 }
          0 1).1 ↔ true = false) ∧
    (TrigEvent.waitDeviceCv ∈
        (sane_trigger_action 1 true
          { numActions := 2, triggered := false, triggeredOption := -1 }
          0 1).1 ↔
      ({ numActions := 2, triggered := false, triggeredOption := -1 } :
        TrigState).triggered = true) ∧
    (∃ q, (sane_trigger_action 1 true
        { numActions := 2, triggered := false, triggeredOption := -1 }
        0 1).1 =
      [TrigEvent.lockGlobal] ++
        (if true then [] else [TrigEvent.waitGlobalCv]) ++
        [TrigEvent.lockDevice] ++ q ++
        [TrigEvent.setTriggered 1, TrigEvent.broadcastDevice,
          TrigEvent.unlockDevice, TrigEvent.unlockGlobal]) :=
  (C2_sane_trigger_action_contract 1 true
    { numActions := 2, triggered := false, triggeredOption := -1 }
    0 1).1 (by decide) (by decide)

/-- The observable steps of the dispatch block of `sane_poll`
(lines 1018-1165), in program order. -/
inductive DispatchEvent where
  | sendScanBegin
  | sendTriggerSignal
  | closeDevice
  | makeScriptAbs
  | unlockDevice
  | sleepTimeout
  | forkChild
  | childExecutes
  | waitForChild
  | freeEnvList
  | lockDevice
  | clearTriggered
  | broadcastDevice
  | sendScanEnd
  | reopenDevice
deriving DecidableEq

/-- The dispatch block of `sane_poll` as its step sequence: bus signals
(1018, 1021), close and null the handle (1024-1025), absolutize the
script (1036), leave the critical section (1042); when the script is not
the no-op sentinel (1048): sleep (1051), fork (1054), the child runs,
the parent waits (1060); then free the environment (1114-1122), retake
the lock (1125), clear the trigger pair (1131-1132), broadcast (1134),
unlock (1139), sleep (1145), scan-end signal (1148), relock (1151) and
reopen the device (1158). -/
def dispatchTrace (runScript : Bool) : List DispatchEvent :=
  [DispatchEvent.sendScanBegin, DispatchEvent.sendTriggerSignal,
    DispatchEvent.closeDevice, DispatchEvent.makeScriptAbs,
    DispatchEvent.unlockDevice] ++
  (if runScript then
    [DispatchEvent.sleepTimeout, DispatchEvent.forkChild,
      DispatchEvent.childExecutes, DispatchEvent.waitForChild]
   else []) ++
  [DispatchEvent.freeEnvList, DispatchEvent.lockDevice,
    DispatchEvent.clearTriggered, DispatchEvent.broadcastDevice,
    DispatchEvent.unlockDevice, DispatchEvent.sleepTimeout,
    DispatchEvent.sendScanEnd, DispatchEvent.lockDevice,
    DispatchEvent.reopenDevice]

/-- Effect of a dispatch step on the open-handle field `st->h`:
`closeDevice` nulls it (line 1025); `reopenDevice` makes it non-null
exactly when `sane_open` succeeds (line 1158); nothing else touches it. -/
def handleAfter (reopenOk : Bool) (h : Bool) : DispatchEvent → Bool
  | DispatchEvent.closeDevice => false
  | DispatchEvent.reopenDevice => reopenOk
  | _ => h

/-- Pairs every dispatch step with the value of the handle field while
that step runs. -/
def annotateHandle (reopenOk : Bool) (h : Bool) :
    List DispatchEvent → List (DispatchEvent × Bool)
  | [] => []
  | e :: es => (e, h) :: annotateHandle reopenOk (handleAfter reopenOk h e) es

/-- The dispatch trace annotated with the handle state, starting from an
open handle (the poller holds the device when a trigger fires). -/
def dispatchAnnotated (runScript reopenOk : Bool) :
    List (DispatchEvent × Bool) :=
  annotateHandle reopenOk true (dispatchTrace runScript)

/-- C7: while the spawned script child executes, the handle is null, for
every script/reopen combination; moreover the close precedes the unlock,
the unlock precedes the fork, the fork precedes the child execution and
the wait, and the reopen strictly follows the wait.  A no-op script
spawns no child at all. -/
theorem C7_handle_null_during_child :
    (∀ (rs ro b : Bool),
      (DispatchEvent.childExecutes, b) ∈ dispatchAnnotated rs ro →
        b = false) ∧
    (List.indexOf DispatchEvent.closeDevice (dispatchTrace true) <
        List.indexOf DispatchEvent.unlockDevice (dispatchTrace true) ∧
      List.indexOf DispatchEvent.unlockDevice (dispatchTrace true) <
        List.indexOf DispatchEvent.forkChild (dispatchTrace true) ∧
      List.indexOf DispatchEvent.forkChild (dispatchTrace true) <
        List.indexOf DispatchEvent.childExecutes (dispatchTrace true) ∧
      List.indexOf DispatchEvent.childExecutes (dispatchTrace true) <
        List.indexOf DispatchEvent.waitForChild (dispatchTrace true) ∧
      List.indexOf DispatchEvent.waitForChild (dispatchTrace true) <
        List.indexOf DispatchEvent.reopenDevice (dispatchTrace true)) ∧
    (DispatchEvent.childExecutes ∈ dispatchTrace true ∧
      DispatchEvent.childExecutes ∉ dispatchTrace false) := by
  refine ⟨?_, by decide, by decide⟩
  intro rs ro b
  cases rs <;> cases ro <;> cases b <;> decide

/-- Witness for C7: the child-execution step of the concrete annotated
trace (script run, reopen succeeds) appears with handle state false, and
the first conjunct applied to that membership. -/
theorem C7_handle_null_during_child_witness :
    (DispatchEvent.childExecutes, false) ∈ dispatchAnnotated true true ∧
      false = false :=
  ⟨by decide, C7_handle_null_during_child.1 true true false (by decide)⟩

/-- `NAME_MAX` of the target platform; `snprintf(buf, NAME_MAX, ...)`
keeps at most `NAME_MAX - 1` characters. -/
def nameMax : Nat := 255

/-- One `NAME=VALUE` environment entry as written by
`snprintf(env[e], NAME_MAX, "%s=%s", name, value)`. -/
def formatEnvEntry (name val : String) : String :=
  String.mk ((name ++ "=" ++ val).toList.take (nameMax - 1))

/-- The PATH default of sane.c line 949. -/
def defaultPath : String := "/usr/sbin:/usr/bin:/sbin:/bin"

/-- Embeds the environment assembly of `sane_poll` (lines 891-1014).
`fvals` are the already-formatted function entries (one per FunctionRule,
loop at lines 899-941).  The remaining parameters abstract the process
environment: `getenv` results for PATH/PWD/USER/HOME (`none` = unset),
`cwd` the `getcwd` result (`none` = failure, which writes no PWD entry,
lines 960-970), the passwd name and home directory (the C asserts the
passwd entry exists), and the two configured variable names from the
environment section (`none` = NULL) with the device name and action
title.  The result is the final `env` array; `none` is returned when the
`assert(e == number_of_envs - 1)` at line 1014 would fail, since the
process aborts there and no environment is handed out. -/
def buildScriptEnv (fvals : List String) (envPATH : Option String)
    (envPWD : Option String) (cwd : Option String)
    (envUSER : Option String) (pwName : String)
    (envHOME : Option String) (pwDir : String)
    (devEnvName : Option String) (devName : String)
    (actEnvName : Option String) (actTitle : String) :
    Option (List (Option String)) :=
  let fpart : List (Option String) := fvals.map (fun s => some s)
  let pathEntry : List (Option String) :=
    [some (formatEnvEntry "PATH" (envPATH.getD defaultPath))]
  let pwdEntry : List (Option String) :=
    match envPWD with
    | some p => [some (formatEnvEntry "PWD" p)]
    | none =>
      match cwd with
      | some c => [some (formatEnvEntry "PWD" c)]
      | none => []
  let userEntry : List (Option String) :=
    [some (formatEnvEntry "USER" (envUSER.getD pwName))]
  let homeEntry : List (Option String) :=
    [some (formatEnvEntry "HOME" (envHOME.getD pwDir))]
  let devEntry : List (Option String) :=
    match devEnvName with
    | some n => [some (formatEnvEntry n devName)]
    | none => []
  let actEntry : List (Option String) :=
    match actEnvName with
    | some n => [some (formatEnvEntry n actTitle)]
    | none => []
  let filled := fpart ++ pathEntry ++ pwdEntry ++ userEntry ++ homeEntry ++
    devEntry ++ actEntry
  if filled.length = fvals.length + 4 + 2 then some (filled ++ [none])
  else none

/-- C9: every environment list handed to the bus signal and the script
child has exactly F + 6 + 1 entries, where F is the number of
FunctionRules: the F function entries, then PATH, PWD, USER, HOME, the
configured device-name variable, the configured action-title variable,
and a null sentinel in the final slot. -/
theorem C9_env_list_layout (fvals : List String)
    (envPATH envPWD cwd envUSER envHOME devEnvName actEnvName :
      Option String)
    (pwName pwDir devName actTitle : String) (l : List (Option String))
    (h : buildScriptEnv fvals envPATH envPWD cwd envUSER pwName envHOME
      pwDir devEnvName devName actEnvName actTitle = some l) :
    l.length = fvals.length + 6 + 1 ∧
    (∃ p w u hm dv ac, l = fvals.map (fun s => some s) ++
      [some p, some w, some u, some hm, some dv, some ac, none]) ∧
    l.getLast? = some none := by
  rcases hdv : devEnvName with _ | dn <;>
    rcases hac : actEnvName with _ | an <;>
    rcases hpw : envPWD with _ | w <;> rcases hcw : cwd with _ | c <;>
    subst hdv <;> subst hac <;> subst hpw <;> subst hcw <;>
    simp [buildScriptEnv] at h <;>
    subst h <;>
    refine ⟨by simp, ⟨_, _, _, _, _, _, rfl⟩, by simp [List.getLast?_append]⟩

/-- Witness for C9: the layout at a concrete completed assembly with one
function entry and every environment source present. -/
theorem C9_env_list_layout_witness :
    ∃ l, buildScriptEnv ["SCANBD_FUNCTION=1"] (some "/bin") (some "/r")
        none (some "root") "root" (some "/root") "/root"
        (some "SCANBD_DEVICE") "net:dev" (some "SCANBD_ACTION") "scan" =
        some l ∧
      l.length = ["SCANBD_FUNCTION=1"].length + 6 + 1 ∧
      l.getLast? = some none := by
  refine ⟨_, rfl, ?_, ?_⟩
  · exact (C9_env_list_layout ["SCANBD_FUNCTION=1"] (some "/bin")
      (some "/r") none (some "root") (some "/root") (some "SCANBD_DEVICE")
      (some "SCANBD_ACTION") "root" "/root" "net:dev" "scan" _ rfl).1
  · exact (C9_env_list_layout ["SCANBD_FUNCTION=1"] (some "/bin")
      (some "/r") none (some "root") (some "/root") (some "SCANBD_DEVICE")
      (some "SCANBD_ACTION") "root" "/root" "net:dev" "scan" _ rfl).2.2

/-- The state of the per-iteration option loop of `sane_poll`
(lines 773-868): the rules already processed in this iteration (their
`value` fields updated in place) and the option numbers read from the
device library so far in this iteration. -/
structure PollReadAcc where
  processed : List SaneDevOption
  reads : List Nat

/-- The skip test of `sane_poll` lines 778-789: a NULL or empty script. -/
def scriptIsEmpty (o : SaneDevOption) : Bool :=
  match o.script with
  | none => true
  | some s => s.length == 0

/-- The value copy of `sane_poll` lines 819-823: the numeric field is
copied, a string value is duplicated with `strdup`, and the regex field
is not copied (it stays at its zero initialization). -/
def copySaneValue (v : SaneOptValue) : SaneOptValue :=
  { numValue := v.numValue
    strValStr := v.strValStr
    strValReg := none }

/-- An observed sample never carries a regex object, so copying it is the
identity. -/
theorem copySaneValue_of_reg_none (v : SaneOptValue)
    (h : v.strValReg = none) : copySaneValue v = v := by
  cases v
  simp_all [copySaneValue]

/-- One step of the option loop of `sane_poll` (lines 773-868) restricted
to the read-or-reuse logic: an empty-script rule is skipped (lines
778-789, its stored value untouched); otherwise the earlier rules of this
iteration are scanned for the same option number (lines 802-809); on a
miss the device library is queried (line 812), on a hit the earlier
rule's freshly stored value is copied (lines 814-824).  The (possibly
copied) value is stored as the rule's new `value` (line 868). -/
def pollReadStep (readDev : Nat → SaneOptValue) (acc : PollReadAcc)
    (o : SaneDevOption) : PollReadAcc :=
  if scriptIsEmpty o then
    { acc with processed := acc.processed ++ [o] }
  else
    match acc.processed.find? (fun p => p.number == o.number) with
    | none =>
      { processed := acc.processed ++ [{ o with value := readDev o.number }]
        reads := acc.reads ++ [o.number] }
    | some p =>
      { acc with processed :=
          acc.processed ++ [{ o with value := copySaneValue p.value }] }

/-- One full pass of the option loop over the installed rules. -/
def pollReadIteration (readDev : Nat → SaneOptValue)
    (opts : List SaneDevOption) : PollReadAcc :=
  opts.foldl (pollReadStep readDev) { processed := [], reads := [] }

/-- Invariant-passing specification of the option-loop fold: provided
every rule has a non-empty script and device reads carry no regex
object, the processed rules all end up holding the device-read value of
their option, the read list stays duplicate-free, and the read list
contains exactly the option numbers of the processed rules. -/
theorem pollReadFoldl_spec (readDev : Nat → SaneOptValue)
    (hreg : ∀ n, (readDev n).strValReg = none) :
    ∀ (opts : List SaneDevOption),
      (∀ o ∈ opts, scriptIsEmpty o = false) →
      ∀ (acc : PollReadAcc),
        (∀ p ∈ acc.processed, p.value = readDev p.number) →
        acc.reads.Nodup →
        (∀ n, n ∈ acc.reads ↔
          n ∈ acc.processed.map (fun p => p.number)) →
        (opts.foldl (pollReadStep readDev) acc).processed =
          acc.processed ++
            opts.map (fun o => { o with value := readDev o.number }) ∧
        (opts.foldl (pollReadStep readDev) acc).reads.Nodup ∧
        (∀ n, n ∈ (opts.foldl (pollReadStep readDev) acc).reads ↔
          n ∈ (opts.foldl (pollReadStep readDev) acc).processed.map
            (fun p => p.number)) := by
  intro opts
  induction opts with
  | nil =>
    intro _ acc hval hnd hmem
    exact ⟨by simp, hnd, hmem⟩
  | cons o os ih =>
    intro hscr acc hval hnd hmem
    have ho : scriptIsEmpty o = false := hscr o (List.mem_cons_self o os)
    have hos : ∀ p ∈ os, scriptIsEmpty p = false :=
      fun p hp => hscr p (List.mem_cons_of_mem o hp)
    have hnum : ({ o with value := readDev o.number } :
        SaneDevOption).number = o.number := rfl
    have hmapapp : (acc.processed ++
        ([{ o with value := readDev o.number }] : List SaneDevOption)).map
          (fun p => p.number) =
        acc.processed.map (fun p => p.number) ++ [o.number] := by
      rw [List.map_append, List.map_cons, List.map_nil, hnum]
    have h1 : ∀ q ∈ acc.processed ++
        [{ o with value := readDev o.number }],
        q.value = readDev q.number := by
      intro q hq
      rcases List.mem_append.mp hq with hq | hq
      · exact hval q hq
      · have hq3 : q = { o with value := readDev o.number } :=
          List.mem_singleton.mp hq
        subst hq3
        rfl
    rw [List.foldl_cons]
    rcases hfind : acc.processed.find? (fun p => p.number == o.number)
      with _ | p
    · have hstep : pollReadStep readDev acc o =
          { processed := acc.processed ++
              [{ o with value := readDev o.number }]
            reads := acc.reads ++ [o.number] } := by
        simp [pollReadStep, ho, hfind]
      have hnotmem : o.number ∉ acc.processed.map (fun p => p.number) := by
        intro hmemn
        rcases List.mem_map.mp hmemn with ⟨q, hq, hqn⟩
        have hq2 := List.find?_eq_none.mp hfind q hq
        simp [hqn] at hq2
      have hnotreads : o.number ∉ acc.reads := fun hr =>
        hnotmem ((hmem o.number).mp hr)
      have h2 : (acc.reads ++ [o.number]).Nodup := by
        simp [List.nodup_append, hnd, hnotreads]
      have h3 : ∀ n, n ∈ acc.reads ++ [o.number] ↔
          n ∈ (acc.processed ++
            ([{ o with value := readDev o.number }] :
              List SaneDevOption)).map (fun p => p.number) := by
        intro n
        rw [hmapapp, List.mem_append, List.mem_append, hmem n]
      have hrec := ih hos
        { processed := acc.processed ++
            [{ o with value := readDev o.number }]
          reads := acc.reads ++ [o.number] } h1 h2 h3
      rw [hstep]
      refine ⟨?_, hrec.2.1, hrec.2.2⟩
      rw [hrec.1]
      simp
    · have hplist : p ∈ acc.processed := List.mem_of_find?_eq_some hfind
      have hpnum : p.number = o.number := by
        have hp2 := List.find?_some hfind
        simpa using hp2
      have hpval : p.value = readDev o.number := by
        rw [hval p hplist, hpnum]
      have hentry : ({ o with value := copySaneValue p.value } :
          SaneDevOption) = { o with value := readDev o.number } := by
        rw [hpval, copySaneValue_of_reg_none _ (hreg o.number)]
      have hstep : pollReadStep readDev acc o =
          { acc with processed := acc.processed ++
              [{ o with value := readDev o.number }] } := by
        simp only [pollReadStep, ho, Bool.false_eq_true, if_false, hfind]
        rw [hentry]
      have honum : o.number ∈ acc.processed.map (fun p => p.number) :=
        List.mem_map.mpr ⟨p, hplist, hpnum⟩
      have h3 : ∀ n, n ∈ acc.reads ↔
          n ∈ (acc.processed ++
            ([{ o with value := readDev o.number }] :
              List SaneDevOption)).map (fun p => p.number) := by
        intro n
        rw [hmapapp, List.mem_append, hmem n]
        constructor
        · exact fun hh => Or.inl hh
        · rintro (hh | hh)
          · exact hh
          · have hn : n = o.number := List.mem_singleton.mp hh
            rw [hn]
            exact honum
      have hrec := ih hos
        { acc with processed := acc.processed ++
            [{ o with value := readDev o.number }] } h1 hnd h3
      rw [hstep]
      refine ⟨?_, hrec.2.1, hrec.2.2⟩
      rw [hrec.1]
      simp

/-- C8: within one polling iteration, each option number is read from the
device library exactly once -- at the first ActionRule carrying it -- and
every later ActionRule with the same option number ends up holding a copy
of that same read value (the copy duplicates a string value and never
queries the device again).  Hypotheses: every installed rule has a
non-NULL, non-empty script (which rule installation guarantees), and
device samples carry no regex object (which `get_sane_option_value`
guarantees). -/
theorem C8_option_read_once_per_iteration (readDev : Nat → SaneOptValue)
    (opts : List SaneDevOption)
    (hreg : ∀ n, (readDev n).strValReg = none)
    (hscr : ∀ o ∈ opts, scriptIsEmpty o = false) :
    (pollReadIteration readDev opts).processed =
      opts.map (fun o => { o with value := readDev o.number }) ∧
    (pollReadIteration readDev opts).reads.Nodup ∧
    (∀ n, n ∈ (pollReadIteration readDev opts).reads ↔
      n ∈ opts.map (fun o => o.number)) := by
  have hmain := pollReadFoldl_spec readDev hreg opts hscr
    { processed := [], reads := [] } (by intro p hp; simp at hp)
    List.nodup_nil (by intro n; simp)
  simp only [pollReadIteration]
  refine ⟨by rw [hmain.1]; simp, hmain.2.1, ?_⟩
  intro n
  rw [hmain.2.2 n, hmain.1]
  simp

/-- A rule with zeroed values, used as concrete test input. -/
def plainRule (num : Nat) (scr nm : String) : SaneDevOption :=
  { number := num
    fromValue := saneOptValueInit
    toValue := saneOptValueInit
    value := saneOptValueInit
    script := some scr
    actionName := nm }

/-- A concrete device-read function used as test input: option n reads
as the numeric value n + 10. -/
def plusTenRead : Nat → SaneOptValue := fun n =>
  { numValue := n + 10, strValStr := none, strValReg := none }

/-- Witness for C8: two rules on option 3 and one on option 5; no option
number is read twice from the device. -/
theorem C8_option_read_once_per_iteration_witness :
    (pollReadIteration plusTenRead
      [plainRule 3 "/tmp/a.sh" "a", plainRule 3 "/tmp/b.sh" "b",
        plainRule 5 "/tmp/c.sh" "c"]).reads.Nodup :=
  (C8_option_read_once_per_iteration plusTenRead
    [plainRule 3 "/tmp/a.sh" "a", plainRule 3 "/tmp/b.sh" "b",
      plainRule 5 "/tmp/c.sh" "c"]
    (fun _ => rfl) (by decide)).2.1

/-- A numeric-only option value. -/
def numValueOf (n : Nat) : SaneOptValue :=
  { numValue := n, strValStr := none, strValReg := none }

/-- A zeroed array slot as produced by the `calloc` of the `opts` array
(lines 666-673). -/
def emptySlot : SaneDevOption :=
  { number := 0
    fromValue := saneOptValueInit
    toValue := saneOptValueInit
    value := saneOptValueInit
    script := none
    actionName := "" }

/-- Embeds the string-trigger branch of `sane_find_matching_options`
(lines 520-596) acting on one slot.  `regcompRet` is the `int` return
value of `regcomp` for a pattern: 0 on success, a POSIX error code on
failure -- POSIX error codes are positive (e.g. glibc REG_EBRACK = 9).
The C code tests `ret < 0` (lines 558, 572), faithfully kept here as a
signed comparison on the returned value.  Returns the `valid` flag and
the slot contents after the branch. -/
def installStringTrigger (regcompRet : String → Nat) (slot : SaneDevOption)
    (opt : Nat) (title scr fromPat toPat : String)
    (readValue : SaneOptValue) : Bool × SaneDevOption :=
  let s0 : SaneDevOption :=
    { slot with
      number := opt
      actionName := title
      script := some scr
      fromValue := saneOptValueInit
      toValue := saneOptValueInit
      value := saneOptValueInit }
  let ret1 := regcompRet fromPat
  let s1 := { s0 with fromValue :=
    { numValue := 0
      strValStr := some fromPat
      strValReg := some (fromPat, ret1 == 0) } }
  let valid1 := if (ret1 : Int) < 0 then false else true
  let ret2 := regcompRet toPat
  let s2 := { s1 with toValue :=
    { numValue := 0
      strValStr := some toPat
      strValReg := some (toPat, ret2 == 0) } }
  let valid2 := if (ret2 : Int) < 0 then false else valid1
  let s3 := { s2 with value := readValue }
  if valid2 then (true, s3)
  else (false, { s3 with
    fromValue := saneOptValueInit
    toValue := saneOptValueInit
    value := saneOptValueInit })

/-- Embeds the slot-selection loop of `sane_find_matching_options`
(lines 491-521): the first installed rule with the same option number is
overridden unless `multiple_actions` is set, in which case (and when no
rule matches) the append slot `num_of_options_with_scripts` is used. -/
def findActionSlot (opts : List SaneDevOption) (multipleActions : Bool)
    (opt : Nat) : Nat :=
  match opts.findIdx? (fun p => p.number == opt) with
  | none => opts.length
  | some i => if multipleActions then opts.length else i

/-- Embeds the install of one matched string-trigger action into the
installed-rule list (lines 489-596).  The list holds the installed rules,
its length being `num_of_options_with_scripts`; `numOfOptions` is the
array capacity `num_of_options`.  When the branch ends with `valid`
false, the C code only skips the count increment (lines 582-587, 592-596):
a fresh slot stays uninstalled, but an overridden slot keeps the
partially overwritten contents. -/
def installStringAction (regcompRet : String → Nat) (numOfOptions : Nat)
    (multipleActions : Bool) (opts : List SaneDevOption) (opt : Nat)
    (title scr fromPat toPat : String) (readValue : SaneOptValue) :
    List SaneDevOption :=
  let n := findActionSlot opts multipleActions opt
  if n = numOfOptions then opts
  else
    let slot := opts.getD n emptySlot
    let r := installStringTrigger regcompRet slot opt title scr fromPat
      toPat readValue
    if r.1 then
      if n = opts.length then opts ++ [r.2] else opts.set n r.2
    else
      if n = opts.length then opts else opts.set n r.2

/-- `regcomp` behaviour for the C4 failing input: the pattern `[` is an
invalid extended regular expression; POSIX `regcomp` reports it with a
positive error code (glibc REG_EBRACK = 9); every other pattern here
compiles fine (returns 0). -/
def badBracketRegcomp : String → Nat := fun p => if p = "[" then 9 else 0

/-- C4, evaluated at the failing input: installing a string-trigger
action whose from-pattern `[` fails to compile nevertheless installs the
rule -- the installed count grows from 0 to 1 and the installed slot
holds the failed regex -- because the code tests `regcomp`'s return with
`ret < 0` while POSIX error codes are positive, so the discard branch is
unreachable. -/
theorem C4_failed_regcomp_rule_still_installed :
    installStringAction badBracketRegcomp 8 false [] 3 "t" "/tmp/s.sh"
        "[" "ok" saneOptValueInit =
      [{ number := 3
         fromValue :=
           { numValue := 0
             strValStr := some "["
             strValReg := some ("[", false) }
         toValue :=
           { numValue := 0
             strValStr := some "ok"
             strValReg := some ("ok", true) }
         value := saneOptValueInit
         script := some "/tmp/s.sh"
         actionName := "t" }] ∧
    (installStringAction badBracketRegcomp 8 false [] 3 "t" "/tmp/s.sh"
      "[" "ok" saneOptValueInit).length = 1 := ⟨rfl, rfl⟩

/-- Embeds the function-rule value selection of the environment builder
in `sane_poll` (lines 911-925): `v` is zero-initialized; the installed
action rules are scanned for the same option number; when none matches
the device is queried, and when one matches the code logs and keeps `v`
as initialized -- it never copies the matching rule's stored value. -/
def dispatchFunctionValue (opts : List SaneDevOption) (fnum : Nat)
    (readDev : Nat → SaneOptValue) : SaneOptValue :=
  let v := saneOptValueInit
  match opts.find? (fun o => o.number == fnum) with
  | none => readDev fnum
  | some _ => v

/-- A numeric function-rule environment entry as written by
`snprintf(env[e], NAME_MAX, "%s=%lu", functions[e].env, v.num_value)`
(line 928). -/
def formatNumEnvEntry (name : String) (v : SaneOptValue) : String :=
  formatEnvEntry name (toString v.numValue)

/-- The C5 failing input: an action rule on option 3 whose freshly
stored last observation is 5. -/
def c5ActionRule : SaneDevOption :=
  { plainRule 3 "/tmp/s.sh" "t" with value := numValueOf 5 }

/-- C5, evaluated at the failing input: a FunctionRule on option 3 whose
option is shared with an action rule holding last-observed value 5 (and
whose device read would yield 13) is formatted from the zero-initialized
value instead -- the env entry reads `...=0` -- while an unshared
function option is indeed read from the device.  The claim (and the
comment at sane.c lines 905-909) says the action rule's stored value is
used; the code never copies it into `v`. -/
theorem C5_function_env_uses_zero_not_last_observed :
    dispatchFunctionValue [c5ActionRule] 3 plusTenRead = saneOptValueInit ∧
    formatNumEnvEntry "SCANBD_FUNCTION" (dispatchFunctionValue
      [c5ActionRule] 3 plusTenRead) = "SCANBD_FUNCTION=0" ∧
    c5ActionRule.value.numValue = 5 ∧
    (plusTenRead 3).numValue = 13 ∧
    dispatchFunctionValue [] 3 plusTenRead = plusTenRead 3 := by
  refine ⟨rfl, ?_, rfl, rfl, rfl⟩
  decide

/-- The poll check of one numeric action rule including the device read,
as executed for the first rule carrying its option number in an
iteration: the value comes from `get_sane_option_value` (line 812), the
comparison is lines 832-841, and the store is line 868. -/
def pollCheckNumericRead (o : SaneDevOption) (odesc : OptDescriptor)
    (readNum : Option Nat) : Bool × SaneDevOption :=
  let value := get_sane_option_value (some odesc) readNum none
  (numericTriggerFires o value, { o with value := value })

/-- The C6 counterexample rule: numeric trigger from 1 to 0, last
observation 1. -/
def c6Rule : SaneDevOption :=
  { plainRule 3 "/tmp/s.sh" "t" with
    fromValue := numValueOf 1
    toValue := numValueOf 0
    value := numValueOf 1 }

/-- Counterexample to C6 as stated: for a bool option whose value read
fails (`sane_control_option` returns a failing status, modelled by the
`none` reading), the option is not skipped -- `get_sane_option_value`
returns the zero value, the trigger comparison runs against it and fires
(from=1 equals the stored 1, to=0 equals the sham 0), and the stored
last observation is replaced by the zero value. -/
theorem C6_read_failure_fires_counterexample :
    (pollCheckNumericRead c6Rule ⟨SaneType.tBool, 4, "button"⟩ none).1 =
        true ∧
    (pollCheckNumericRead c6Rule ⟨SaneType.tBool, 4, "button"⟩ none
      ).2.value = saneOptValueInit := by
  exact ⟨rfl, rfl⟩

/-- C6 as amended: when the option-value read of a numeric rule fails,
the option is not skipped; `get_sane_option_value` returns the
zero-initialized value, the comparison runs against it -- so the rule
fires exactly when its from-value equals the stored last observation and
its to-value is 0 -- and the stored last observation is replaced by the
zero value. -/
theorem C6_read_failure_compares_against_zero (o : SaneDevOption)
    (odesc : OptDescriptor) (ht : isNumericSaneType odesc.otype = true) :
    ((pollCheckNumericRead o odesc none).1 = true ↔
      (o.fromValue.numValue = o.value.numValue ∧
        o.toValue.numValue = 0)) ∧
    (pollCheckNumericRead o odesc none).2.value = saneOptValueInit := by
  have hval : get_sane_option_value (some odesc) none none =
      saneOptValueInit := by
    simp [get_sane_option_value, ht]
  constructor
  · rw [pollCheckNumericRead]
    simp only [hval, numericTriggerFires, saneOptValueInit,
      Bool.and_eq_true, beq_iff_eq]
  · rw [pollCheckNumericRead]
    simp only [hval]

/-- Witness for the amended C6: the characterization applied at the
concrete counterexample rule and descriptor. -/
theorem C6_read_failure_compares_against_zero_witness :
    ((pollCheckNumericRead c6Rule ⟨SaneType.tBool, 4, "button"⟩ none).1 =
        true ↔
      (c6Rule.fromValue.numValue = c6Rule.value.numValue ∧
        c6Rule.toValue.numValue = 0)) ∧
    (pollCheckNumericRead c6Rule ⟨SaneType.tBool, 4, "button"⟩ none
      ).2.value = saneOptValueInit :=
  C6_read_failure_compares_against_zero c6Rule
    ⟨SaneType.tBool, 4, "button"⟩ rfl

end Scanbd
